import Mathlib

/-!
Verification of the MCP weather server (`src/service.ts`): a shallow
embedding of the request router with its session registry, and of the
`get_city_weather` tool pipeline (zod argument validation, unit
conversion, structured result construction), together with theorems
settling the specification claims.
-/

namespace WeatherServer

/-! ## Data model of the weather tool -/

/-- Temperature unit, `'metric' | 'imperial'` in the source. -/
inductive TUnit
  | metric
  | imperial
deriving DecidableEq, Repr

instance : Fintype TUnit :=
  ⟨{TUnit.metric, TUnit.imperial}, by intro x; cases x <;> simp⟩

/-- `interface WeatherData` from the source.  Temperatures and humidity are
JS numbers; every numeric value in the program is exactly representable, so
they are embedded as rationals. -/
structure WeatherData where
  temperature : ℚ
  description : String
  humidity : ℚ
  unit : TUnit
deriving DecidableEq, Repr

/-- `const dummyWeatherData` — the lookup table, keys already lowercase. -/
def dummyWeatherData : List (String × WeatherData) :=
  [("paris",  { temperature := 15, description := "Cloudy", humidity := 70, unit := TUnit.metric }),
   ("london", { temperature := 12, description := "Rainy",  humidity := 85, unit := TUnit.metric }),
   ("tokyo",  { temperature := 22, description := "Sunny",  humidity := 60, unit := TUnit.metric })]

/-- One content block of a tool result; the source only ever emits
`{ type: "text", text }` blocks. -/
inductive ContentBlock
  | text (s : String)
deriving DecidableEq, Repr

/-- The `structuredOutput` object built by the handler, matching the
declared `outputSchema` field-for-field. -/
structure StructuredOutput where
  city : String
  temperature : ℚ
  unit : TUnit
  description : String
  humidity : ℚ
deriving DecidableEq, Repr

/-- `CallToolResult`: `isError` is absent (hence falsy) on the success path,
`structuredContent` is present only where the source supplies it. -/
structure CallToolResult where
  isError : Bool := false
  content : List ContentBlock
  structuredContent : Option StructuredOutput := none
deriving DecidableEq, Repr

/-- JS `String.prototype.toLowerCase()` on the ASCII strings this program
handles: lowercase each character.  (Structural recursion over the character
list; extensionally equal to `String.toLower`.) -/
def toLowerCase (s : String) : String :=
  ⟨s.data.map Char.toLower⟩

/-! ## Rounding

`parseFloat(x.toFixed(1))` in the source rounds to one decimal place.
For every value the program produces, `x * 10` is far from a tie, so
round-half-up over the rationals models it exactly. -/

/-- One-decimal rounding: `parseFloat(x.toFixed(1))`. -/
def round1 (q : ℚ) : ℚ :=
  (⌊q * 10 + 1 / 2⌋ : ℚ) / 10

/-- How JS string interpolation prints the (one-decimal, non-negative)
numbers of this program: integers without a decimal point, otherwise one
decimal digit. -/
def renderNum (q : ℚ) : String :=
  if q.den = 1 then toString q.num
  else toString ((q * 10).num / 10) ++ "." ++ toString ((q * 10).num % 10)

/-- `°C` / `°F` suffix choice in `responseText`. -/
def unitLetter : TUnit → String
  | TUnit.metric => "C"
  | TUnit.imperial => "F"

/-! ## The tool handler -/

/-- Lines 83–93 of the handler: pick `displayTemperature`/`displayUnit`
from the source record and the requested unit, then round to one decimal. -/
def displayOf (w : WeatherData) (unit : TUnit) : ℚ × TUnit :=
  let conv : ℚ × TUnit :=
    if unit = TUnit.imperial ∧ w.unit = TUnit.metric then
      (w.temperature * 9 / 5 + 32, TUnit.imperial)
    else if unit = TUnit.metric ∧ w.unit = TUnit.imperial then
      ((w.temperature - 32) * 5 / 9, TUnit.metric)
    else
      (w.temperature, w.unit)
  (round1 conv.1, conv.2)

/-- The `get_city_weather` handler body, taking the zod-validated
arguments.  Note the handler lowercases its lookup key again
(`dummyWeatherData[city.toLowerCase()]`, line 74). -/
def getCityWeatherHandler (city : String) (unit : TUnit) : CallToolResult :=
  match dummyWeatherData.lookup (toLowerCase city) with
  | none =>
      { isError := true
        content := [ContentBlock.text ("Sorry, I don't have weather data for " ++ city ++ ".")]
        structuredContent := none }
  | some weather =>
      let d := displayOf weather unit
      let responseText :=
        "The weather in " ++ city ++ " is " ++ renderNum d.1 ++ "°" ++ unitLetter d.2 ++
        ", " ++ weather.description ++ " with " ++ renderNum weather.humidity ++ "% humidity."
      { isError := false
        content := [ContentBlock.text responseText]
        structuredContent := some
          { city := city
            temperature := d.1
            unit := d.2
            description := weather.description
            humidity := weather.humidity } }

/-! ## zod validation step -/

/-- Raw tool arguments before zod validation: `unit` is optional. -/
structure RawArgs where
  city : String
  unit : Option TUnit
deriving DecidableEq, Repr

/-- Arguments after zod validation. -/
structure ValidatedArgs where
  city : String
  unit : TUnit
deriving DecidableEq, Repr

/-- The zod `inputSchema` transformations: `city: z.string().toLowerCase()`
and `unit: z.enum([...]).optional().default("metric")`. -/
def validateArgs (raw : RawArgs) : ValidatedArgs :=
  { city := toLowerCase raw.city
    unit := raw.unit.getD TUnit.metric }

/-- Full tool invocation: zod validation, then the handler. -/
def invokeGetCityWeather (raw : RawArgs) : CallToolResult :=
  let a := validateArgs raw
  getCityWeatherHandler a.city a.unit

/-! ## The request router and session registry

`app.all('/mcp', ...)` together with the `activeTransports` map.
Transports themselves are opaque; a transport is identified by a tag. -/

/-- HTTP method; `.all` handles GET, POST and DELETE. -/
inductive Method
  | get
  | post
  | delete
deriving DecidableEq, Repr

/-- Opaque transport instance, identified by a tag. -/
abbrev Transport := Nat

/-- `const activeTransports: { [sessionId: string]: ... }` — a JS object
used as a map.  Observed through `regGet`/`regInsert`/`regRemove` below,
which embed property read, property assignment and `delete`. -/
abbrev Registry := List (String × Transport)

/-- Property read `activeTransports[sid]`: the most recent binding. -/
def regGet (reg : Registry) (sid : String) : Option Transport :=
  reg.lookup sid

/-- Property assignment `activeTransports[sid] = t` (as run by
`onsessioninitialized`): unconditional store, shadowing any old binding. -/
def regInsert (reg : Registry) (sid : String) (t : Transport) : Registry :=
  (sid, t) :: reg

/-- `delete activeTransports[sid]`: the key is gone afterwards. -/
def regRemove (reg : Registry) (sid : String) : Registry :=
  reg.filter (fun p => p.1 != sid)

/-- JS truthiness of `string | undefined`: `undefined` and the empty
string are falsy. -/
def truthy : Option String → Bool
  | none => false
  | some s => decide (s ≠ "")

/-- The `transport.onclose` callback: `const sid = transport.sessionId;
if (sid && activeTransports[sid]) delete activeTransports[sid];`. -/
def onClose (reg : Registry) (sid : Option String) : Registry :=
  if truthy sid ∧ (regGet reg (sid.getD "")).isSome then
    regRemove reg (sid.getD "")
  else reg

/-- The request as the router sees it: HTTP method, the
`mcp-session-id` header, and whether `isInitializeRequest(req.body)`. -/
structure RequestEnvelope where
  method : Method
  sessionId : Option String
  isInitBody : Bool
deriving DecidableEq, Repr

/-- What the router decides to do with a request. -/
inductive RouteOutcome
  | reuse (t : Transport)
  | createNew
  | errorResponse (status : Nat) (code : Int)
deriving DecidableEq, Repr

/-- The `app.all('/mcp')` branch cascade, with the effect of a successful
initialization folded in: in branch two the new transport's
`onsessioninitialized` callback eventually stores the freshly generated
session id (`freshId`, a `randomUUID()`), which is the only way a session
ever enters the registry. -/
def handleRequest (reg : Registry) (req : RequestEnvelope)
    (freshId : String) (freshT : Transport) : RouteOutcome × Registry :=
  let sid := req.sessionId.getD ""
  if truthy req.sessionId ∧ (regGet reg sid).isSome then
    (RouteOutcome.reuse ((regGet reg sid).getD 0), reg)
  else if ¬ truthy req.sessionId ∧ req.method = Method.post ∧ req.isInitBody then
    (RouteOutcome.createNew, regInsert reg freshId freshT)
  else if truthy req.sessionId ∧ ¬ (regGet reg sid).isSome then
    (RouteOutcome.errorResponse 404 (-32001), reg)
  else
    (RouteOutcome.errorResponse 400 (-32600), reg)

/-! ## Definitions taken from the specification's words

Used only on the spec side of refinement-style statements, never inside
the embedded code. -/

/-- Modelled from the spec: the standard Celsius → Fahrenheit affine
transform. -/
def celsiusToFahrenheit (c : ℚ) : ℚ := c * (9 / 5) + 32

/-- Modelled from the spec: the standard Fahrenheit → Celsius affine
transform. -/
def fahrenheitToCelsius (f : ℚ) : ℚ := (f - 32) * (5 / 9)

/-- Modelled from the spec: conversion from a source record's native unit
to the requested unit, identity when they agree. -/
def specConvert : TUnit → TUnit → ℚ → ℚ
  | TUnit.metric, TUnit.imperial, t => celsiusToFahrenheit t
  | TUnit.imperial, TUnit.metric, t => fahrenheitToCelsius t
  | _, _, t => t

/-! ## Helper lemmas -/

/-- Evaluation rule for `round1` given bracketing bounds on the scaled
argument. -/
theorem round1_eq_of (q : ℚ) (n : ℤ) (h1 : (n : ℚ) ≤ q * 10 + 1 / 2)
    (h2 : q * 10 + 1 / 2 < (n : ℚ) + 1) : round1 q = (n : ℚ) / 10 := by
  unfold round1
  rw [show ⌊q * 10 + 1 / 2⌋ = n from Int.floor_eq_iff.mpr ⟨h1, by exact_mod_cast h2⟩]

/-- Rounding an integer temperature to one decimal place changes nothing. -/
theorem round1_intCast (n : ℤ) : round1 (n : ℚ) = (n : ℚ) := by
  rw [round1_eq_of (n : ℚ) (10 * n) (by push_cast; linarith) (by push_cast; linarith)]
  push_cast
  ring

/-- Lowercasing a character twice is the same as lowercasing it once. -/
theorem char_toLower_toLower (c : Char) : c.toLower.toLower = c.toLower := by
  simp only [Char.toLower]
  by_cases h : c.toNat ≥ 65 ∧ c.toNat ≤ 90
  · rw [if_pos h]
    have hv : (c.toNat + 32).isValidChar := Or.inl (by omega)
    have ht : (Char.ofNat (c.toNat + 32)).toNat = c.toNat + 32 := by
      unfold Char.ofNat
      rw [dif_pos hv]
      rfl
    rw [if_neg (by rw [ht]; omega)]
  · rw [if_neg h, if_neg h]

/-- Lowercasing a string twice is the same as lowercasing it once. -/
theorem toLowerCase_toLowerCase (s : String) :
    toLowerCase (toLowerCase s) = toLowerCase s := by
  simp only [toLowerCase, List.map_map]
  congr 1
  exact List.map_congr_left fun c _ => char_toLower_toLower c

/-- Looking a key up after deleting it finds nothing. -/
theorem regGet_regRemove (reg : Registry) (s : String) :
    regGet (regRemove reg s) s = none := by
  induction reg with
  | nil => rfl
  | cons p rest ih =>
      by_cases h : p.1 = s
      · simpa [regRemove, List.filter_cons, h] using ih
      · have hb : (p.1 != s) = true := by simpa using h
        have hs : (s == p.1) = false := by simpa using Ne.symm h
        simp only [regRemove, regGet, List.filter_cons, hb, if_true, List.lookup, hs]
        exact ih

/-- Success-path shape of a full tool invocation: the structured payload
built from the source record and the display pair. -/
theorem invoke_found (city : String) (ru : Option TUnit) (w : WeatherData)
    (hw : dummyWeatherData.lookup (toLowerCase city) = some w) :
    (invokeGetCityWeather ⟨city, ru⟩).structuredContent
      = some { city := toLowerCase city
               temperature := (displayOf w (ru.getD TUnit.metric)).1
               unit := (displayOf w (ru.getD TUnit.metric)).2
               description := w.description
               humidity := w.humidity } := by
  have h2 : dummyWeatherData.lookup (toLowerCase (toLowerCase city)) = some w := by
    rw [toLowerCase_toLowerCase]
    exact hw
  simp [invokeGetCityWeather, validateArgs, getCityWeatherHandler, h2]

/-! ## Claims about the router and the session registry -/

/-- Claim C1, counterexample: a request whose `mcp-session-id` header
carries the empty string — an identifier the server never issued, with no
active session for it — is not rejected with `SessionNotFound` when its
body is an initialization POST.  JS truthiness treats the empty string
like an absent header, so the router takes the initialization branch and
a brand-new session is created. -/
theorem C1_counterexample :
    handleRequest [] ⟨Method.post, some "", true⟩ "3f2b" 1
      = (RouteOutcome.createNew, [("3f2b", 1)]) ∧
    (handleRequest [] ⟨Method.post, some "", true⟩ "3f2b" 1).1
      ≠ RouteOutcome.errorResponse 404 (-32001) ∧
    (handleRequest [] ⟨Method.post, some "", true⟩ "3f2b" 1).2 ≠ [] := by
  decide

/-- Claim C1 (amended): for every request carrying a nonempty session
identifier for which no active session exists in the registry, the router
fails with `SessionNotFound` (protocol error code -32001) and the
registry is unchanged — no session is created.  (A request whose session
header holds the empty string is the one exception: JS truthiness routes
it as if the header were absent.) -/
theorem C1_unknown_session_rejected (reg : Registry) (req : RequestEnvelope)
    (s freshId : String) (freshT : Transport)
    (hsid : req.sessionId = some s) (hne : s ≠ "")
    (habs : regGet reg s = none) :
    handleRequest reg req freshId freshT
      = (RouteOutcome.errorResponse 404 (-32001), reg) := by
  simp [handleRequest, truthy, hsid, hne, habs]

/-- Claim C1 witness: the amended theorem at a concrete registry and
request. -/
theorem C1_witness :
    handleRequest [("live", 7)] ⟨Method.get, some "ghost", false⟩ "f" 9
      = (RouteOutcome.errorResponse 404 (-32001), [("live", 7)]) :=
  C1_unknown_session_rejected [("live", 7)] ⟨Method.get, some "ghost", false⟩
    "ghost" "f" 9 rfl (by decide) (by decide)

/-- Claim C2: a request with no session identifier whose body is not an
initialization request is answered with protocol error code -32600, and
the registry is returned unchanged — no session is created as a side
effect. -/
theorem C2_malformed_rejected (reg : Registry) (req : RequestEnvelope)
    (freshId : String) (freshT : Transport)
    (hnone : req.sessionId = none) (hnotinit : req.isInitBody = false) :
    handleRequest reg req freshId freshT
      = (RouteOutcome.errorResponse 400 (-32600), reg) := by
  simp [handleRequest, truthy, hnone, hnotinit]

/-- Claim C2 witness: the theorem at a concrete registry and request. -/
theorem C2_witness :
    handleRequest [("a", 3)] ⟨Method.post, none, false⟩ "f" 9
      = (RouteOutcome.errorResponse 400 (-32600), [("a", 3)]) :=
  C2_malformed_rejected [("a", 3)] ⟨Method.post, none, false⟩ "f" 9 rfl rfl

/-- Claim C3: once a session's transport signals closure, its identifier
is removed from the registry; every subsequent request bearing that
identifier is rejected with `SessionNotFound` and does not resurrect the
session (the registry stays without it); and a repeated close signal
changes nothing (idempotent teardown).  Server-issued identifiers are
UUIDs, hence nonempty. -/
theorem C3_closed_session_never_served (reg : Registry) (req : RequestEnvelope)
    (sid freshId : String) (freshT : Transport)
    (hne : sid ≠ "") (hreq : req.sessionId = some sid) :
    regGet (onClose reg (some sid)) sid = none ∧
    handleRequest (onClose reg (some sid)) req freshId freshT
      = (RouteOutcome.errorResponse 404 (-32001), onClose reg (some sid)) ∧
    onClose (onClose reg (some sid)) (some sid) = onClose reg (some sid) := by
  have hgone : regGet (onClose reg (some sid)) sid = none := by
    by_cases h : (regGet reg sid).isSome
    · simp [onClose, truthy, hne, h, regGet_regRemove]
    · simp only [onClose, truthy, Option.getD_some]
      rw [if_neg (by simp [h])]
      simpa using h
  refine ⟨hgone, ?_, ?_⟩
  · simp [handleRequest, truthy, hreq, hne, hgone]
  · conv_lhs => rw [onClose]
    simp [hgone]

/-- Claim C3 witness: the theorem at a concrete registry holding the
session, closed once, then probed with a stale initialization POST. -/
theorem C3_witness :
    regGet (onClose [("sess1", 5)] (some "sess1")) "sess1" = none ∧
    handleRequest (onClose [("sess1", 5)] (some "sess1"))
        ⟨Method.post, some "sess1", true⟩ "x" 9
      = (RouteOutcome.errorResponse 404 (-32001), onClose [("sess1", 5)] (some "sess1")) ∧
    onClose (onClose [("sess1", 5)] (some "sess1")) (some "sess1")
      = onClose [("sess1", 5)] (some "sess1") :=
  C3_closed_session_never_served [("sess1", 5)] ⟨Method.post, some "sess1", true⟩
    "sess1" "x" 9 (by decide) rfl

/-- Claim C7, counterexample: storing a binding for an identifier that is
already present in the registry does not fail with any duplicate-session
error — the assignment run by `onsessioninitialized` silently overwrites
the existing binding. -/
theorem C7_counterexample :
    regGet (regInsert [("sess", 1)] "sess" 2) "sess" = some 2 ∧
    regGet [("sess", 1)] "sess" = some 1 ∧
    regInsert [("sess", 1)] "sess" 2 ≠ [("sess", 1)] := by
  decide

/-- Claim C7 (amended): the insert run by `onsessioninitialized` stores
the binding unconditionally — afterwards the inserted transport is the
one retrieved for that identifier and other identifiers are untouched; a
duplicate identifier is silently overwritten rather than rejected
(uniqueness rests on the collision-free `randomUUID` generator). -/
theorem C7_insert_unconditional (reg : Registry) (id idOther : String)
    (t : Transport) (hne : idOther ≠ id) :
    regGet (regInsert reg id t) id = some t ∧
    regGet (regInsert reg id t) idOther = regGet reg idOther := by
  constructor
  · simp [regGet, regInsert, List.lookup]
  · have hb : (idOther == id) = false := by simpa using hne
    simp [regGet, regInsert, List.lookup, hb]

/-- Claim C7 witness: the amended theorem at a concrete registry. -/
theorem C7_witness :
    regGet (regInsert [("old", 4)] "new" 9) "new" = some 9 ∧
    regGet (regInsert [("old", 4)] "new" 9) "old" = regGet [("old", 4)] "old" :=
  C7_insert_unconditional [("old", 4)] "new" "old" 9 (by decide)

/-! ## Claims about the weather tool -/

/-- Helper: the rounding step is the identity on the temperatures stored
in the dummy data source (they are all integers). -/
theorem dummy_temperature_round1 (s : String) (w : WeatherData)
    (hw : dummyWeatherData.lookup s = some w) :
    round1 w.temperature = w.temperature := by
  have hint : ∀ n : ℤ, ∀ q : ℚ, q = (n : ℚ) → round1 q = q := by
    intro n q hq
    rw [hq, round1_intCast]
  simp only [dummyWeatherData, List.lookup] at hw
  split at hw
  · obtain rfl := Option.some_inj.mp hw
    exact hint 15 _ (by norm_num)
  · split at hw
    · obtain rfl := Option.some_inj.mp hw
      exact hint 12 _ (by norm_num)
    · split at hw
      · obtain rfl := Option.some_inj.mp hw
        exact hint 22 _ (by norm_num)
      · cases hw

/-- Claim C4: for every known city and every requested unit (metric when
the argument is omitted), when the source record's native unit differs
from the requested unit the returned temperature is the standard
Celsius↔Fahrenheit affine transform of the source temperature rounded to
one decimal place, and the structured payload's unit field is the unit
actually used for the number; concretely, a 0°C source converted to
imperial displays 32.0 and a 100°C source displays 212.0. -/
theorem C4_conversion (city : String) (w : WeatherData) (ru : Option TUnit)
    (hw : dummyWeatherData.lookup (toLowerCase city) = some w)
    (hdiff : ru.getD TUnit.metric ≠ w.unit) :
    ((invokeGetCityWeather ⟨city, ru⟩).structuredContent
      = some { city := toLowerCase city
               temperature := round1 (specConvert w.unit (ru.getD TUnit.metric) w.temperature)
               unit := ru.getD TUnit.metric
               description := w.description
               humidity := w.humidity }) ∧
    displayOf { temperature := 0, description := "d", humidity := 0, unit := TUnit.metric }
        TUnit.imperial = (32, TUnit.imperial) ∧
    displayOf { temperature := 100, description := "d", humidity := 0, unit := TUnit.metric }
        TUnit.imperial = (212, TUnit.imperial) := by
  have h32 : round1 32 = 32 := by
    have h := round1_intCast 32
    norm_num at h
    exact h
  have h212 : round1 212 = 212 := by
    have h := round1_intCast 212
    norm_num at h
    exact h
  refine ⟨?_, ?_, ?_⟩
  · rw [invoke_found city ru w hw]
    have hd : displayOf w (ru.getD TUnit.metric)
        = (round1 (specConvert w.unit (ru.getD TUnit.metric) w.temperature),
           ru.getD TUnit.metric) := by
      cases hu : ru.getD TUnit.metric <;> cases hwu : w.unit
      · rw [hu, hwu] at hdiff
        exact absurd rfl hdiff
      · simp only [displayOf, hwu, specConvert, fahrenheitToCelsius]
        rw [if_neg (by simp), if_pos (by simp)]
        rw [show (w.temperature - 32) * 5 / 9 = (w.temperature - 32) * (5 / 9) by ring]
      · simp only [displayOf, hwu, specConvert, celsiusToFahrenheit]
        rw [if_pos (by simp)]
        rw [show w.temperature * 9 / 5 + 32 = w.temperature * (9 / 5) + 32 by ring]
      · rw [hu, hwu] at hdiff
        exact absurd rfl hdiff
    rw [hd]
  · simp only [displayOf]
    norm_num [h32]
  · simp only [displayOf]
    norm_num [h212]

/-- Claim C4 witness: the theorem at the known city paris (15°C metric)
with imperial requested. -/
theorem C4_witness :
    ((invokeGetCityWeather ⟨"paris", some TUnit.imperial⟩).structuredContent
      = some { city := toLowerCase "paris"
               temperature := round1 (specConvert TUnit.metric TUnit.imperial 15)
               unit := TUnit.imperial
               description := "Cloudy"
               humidity := 70 }) ∧
    displayOf { temperature := 0, description := "d", humidity := 0, unit := TUnit.metric }
        TUnit.imperial = (32, TUnit.imperial) ∧
    displayOf { temperature := 100, description := "d", humidity := 0, unit := TUnit.metric }
        TUnit.imperial = (212, TUnit.imperial) :=
  C4_conversion "paris" ⟨15, "Cloudy", 70, TUnit.metric⟩ (some TUnit.imperial)
    (by decide) (by decide)

/-- Claim C5: invoking the weather tool with a city not present in the
data source yields a tool-call result — not a protocol error — whose
payload flags failure (`isError: true`) and whose single text block
explains the missing data. -/
theorem C5_unknown_city_is_domain_miss (city : String) (ru : Option TUnit)
    (h : dummyWeatherData.lookup (toLowerCase city) = none) :
    invokeGetCityWeather ⟨city, ru⟩
      = { isError := true
          content := [ContentBlock.text
            ("Sorry, I don't have weather data for " ++ toLowerCase city ++ ".")]
          structuredContent := none } := by
  have h2 : dummyWeatherData.lookup (toLowerCase (toLowerCase city)) = none := by
    rw [toLowerCase_toLowerCase]
    exact h
  simp [invokeGetCityWeather, validateArgs, getCityWeatherHandler, h2]

/-- Claim C5 witness: the theorem at the unknown city atlantis. -/
theorem C5_witness :
    invokeGetCityWeather ⟨"atlantis", none⟩
      = { isError := true
          content := [ContentBlock.text
            ("Sorry, I don't have weather data for " ++ toLowerCase "atlantis" ++ ".")]
          structuredContent := none } :=
  C5_unknown_city_is_domain_miss "atlantis" none (by decide)

/-- Claim C6: for every known city, requesting the source record's native
unit performs no conversion — the returned temperature is the source
temperature unchanged (its one-decimal rounding is the identity here)
and every other payload field is the source value. -/
theorem C6_same_unit_round_trip (city : String) (w : WeatherData) (ru : Option TUnit)
    (hw : dummyWeatherData.lookup (toLowerCase city) = some w)
    (hsame : ru.getD TUnit.metric = w.unit) :
    (invokeGetCityWeather ⟨city, ru⟩).structuredContent
      = some { city := toLowerCase city
               temperature := w.temperature
               unit := w.unit
               description := w.description
               humidity := w.humidity } := by
  rw [invoke_found city ru w hw]
  have hdisp : displayOf w (ru.getD TUnit.metric) = (round1 w.temperature, w.unit) := by
    rw [hsame]
    cases hwu : w.unit <;> simp [displayOf, hwu]
  rw [hdisp, dummy_temperature_round1 _ w hw]

/-- Claim C6 witness: the theorem at the known city tokyo with the unit
argument omitted (defaulting to its native metric). -/
theorem C6_witness :
    (invokeGetCityWeather ⟨"tokyo", none⟩).structuredContent
      = some { city := toLowerCase "tokyo"
               temperature := 22
               unit := TUnit.metric
               description := "Sunny"
               humidity := 60 } :=
  C6_same_unit_round_trip "tokyo" ⟨22, "Sunny", 60, TUnit.metric⟩ none (by decide) rfl

/-- Claim C8, counterexample: the raw key "Paris" is not a key of the
data source, yet the handler called with it (bypassing the validation
step) still finds the record — so lowercase folding happens inside the
handler as well, not only at the schema-validation step as the claim
states. -/
theorem C8_counterexample :
    dummyWeatherData.lookup "Paris" = none ∧
    (getCityWeatherHandler "Paris" TUnit.metric).isError = false := by
  decide

/-- Claim C8 (amended): case folding to the canonical lowercase key
happens at the schema-validation step before the handler runs, and the
handler additionally (redundantly) lowercases its lookup key; any two
casings of a city with the same lowercase folding — in particular any
casing and the lowercase form itself — yield identical tool results. -/
theorem C8_case_insensitive (c1 c2 : String) (ru : Option TUnit)
    (h : toLowerCase c1 = toLowerCase c2) :
    (validateArgs ⟨c1, ru⟩).city = toLowerCase c1 ∧
    invokeGetCityWeather ⟨c1, ru⟩ = invokeGetCityWeather ⟨c2, ru⟩ := by
  refine ⟨rfl, ?_⟩
  show getCityWeatherHandler (toLowerCase c1) (ru.getD TUnit.metric)
    = getCityWeatherHandler (toLowerCase c2) (ru.getD TUnit.metric)
  rw [h]

/-- Claim C8 witness: the amended theorem for the casings "PARIS" and
"Paris". -/
theorem C8_witness :
    (validateArgs ⟨"PARIS", some TUnit.metric⟩).city = toLowerCase "PARIS" ∧
    invokeGetCityWeather ⟨"PARIS", some TUnit.metric⟩
      = invokeGetCityWeather ⟨"Paris", some TUnit.metric⟩ :=
  C8_case_insensitive "PARIS" "Paris" (some TUnit.metric) (by decide)

/-- Claim C9: on a domain miss the tool result carries only the error
flag and one text block — no structured payload, although the tool
declares an output schema — while on the success path the structured
payload is present. -/
theorem C9_structured_only_on_success (city cityS : String) (ru ruS : Option TUnit)
    (w : WeatherData)
    (h : dummyWeatherData.lookup (toLowerCase city) = none)
    (hS : dummyWeatherData.lookup (toLowerCase cityS) = some w) :
    (invokeGetCityWeather ⟨city, ru⟩).isError = true ∧
    (invokeGetCityWeather ⟨city, ru⟩).content
      = [ContentBlock.text ("Sorry, I don't have weather data for " ++ toLowerCase city ++ ".")] ∧
    (invokeGetCityWeather ⟨city, ru⟩).structuredContent = none ∧
    (invokeGetCityWeather ⟨cityS, ruS⟩).structuredContent.isSome = true := by
  have h2 : dummyWeatherData.lookup (toLowerCase (toLowerCase city)) = none := by
    rw [toLowerCase_toLowerCase]
    exact h
  refine ⟨?_, ?_, ?_, ?_⟩
  · simp [invokeGetCityWeather, validateArgs, getCityWeatherHandler, h2]
  · simp [invokeGetCityWeather, validateArgs, getCityWeatherHandler, h2]
  · simp [invokeGetCityWeather, validateArgs, getCityWeatherHandler, h2]
  · rw [invoke_found cityS ruS w hS]
    rfl

/-- Claim C9 witness: the theorem at the missing city atlantis and the
present city paris. -/
theorem C9_witness :
    (invokeGetCityWeather ⟨"atlantis", none⟩).isError = true ∧
    (invokeGetCityWeather ⟨"atlantis", none⟩).content
      = [ContentBlock.text ("Sorry, I don't have weather data for " ++ toLowerCase "atlantis" ++ ".")] ∧
    (invokeGetCityWeather ⟨"atlantis", none⟩).structuredContent = none ∧
    (invokeGetCityWeather ⟨"paris", none⟩).structuredContent.isSome = true :=
  C9_structured_only_on_success "atlantis" "paris" none none
    ⟨15, "Cloudy", 70, TUnit.metric⟩ (by decide) (by decide)

/-- Claim C10: for every known city and every requested unit, the
structured payload's description and humidity fields are the source
record's values unchanged (and the city field is the canonical key) —
the requested unit can influence only the temperature and unit fields. -/
theorem C10_unit_only_affects_temperature (city : String) (w : WeatherData)
    (ru : Option TUnit)
    (hw : dummyWeatherData.lookup (toLowerCase city) = some w) :
    ∃ sc : StructuredOutput,
      (invokeGetCityWeather ⟨city, ru⟩).structuredContent = some sc ∧
      sc.city = toLowerCase city ∧
      sc.description = w.description ∧
      sc.humidity = w.humidity :=
  ⟨_, invoke_found city ru w hw, rfl, rfl, rfl⟩

/-- Claim C10 witness: the theorem at the known city london with imperial
requested (a unit differing from the record's native metric). -/
theorem C10_witness :
    ∃ sc : StructuredOutput,
      (invokeGetCityWeather ⟨"london", some TUnit.imperial⟩).structuredContent = some sc ∧
      sc.city = toLowerCase "london" ∧
      sc.description = "Rainy" ∧
      sc.humidity = 85 :=
  C10_unit_only_affects_temperature "london" ⟨12, "Rainy", 85, TUnit.metric⟩
    (some TUnit.imperial) (by decide)

end WeatherServer
